import Mathlib

/-!
Verification of the IGP2 road-network query engine (`igp2/opendrive/map.py`)
and the hierarchical macro-action execution layer (`igp2/agents/macro_agent.py`,
`igp2/agents/traffic_agent.py`) against its natural-language specification.

The Python sources are shallowly embedded: shapely geometry objects are
abstracted to distance functions over rational points, Python floats become
rationals, object identity of lanes becomes a numeric `uid` field, fallible
code returns `Except`, and the unbounded recursion of `road_in_roundabout`
becomes a fuel-indexed function whose `none` result means "did not finish
within the given recursion depth".
-/

/-- A point in cartesian coordinates (shapely `Point`), modelled as a pair of
rationals. -/
abbrev MapPoint : Type := ℚ × ℚ

/-- Rational stand-in for the double-precision constant `np.pi` used by the
source (the selection logic only compares and adds angles, so a fixed rational
approximation plays the role of the float constant). -/
def PI : ℚ := mkRat 3141592653589793 1000000000000000

/-- Python's float modulo `a % m` (result carries the sign of the divisor). -/
def py_mod (a m : ℚ) : ℚ := a - m * ⌊a / m⌋

/-- Modelled from the spec: `normalise_angle` from the road-geometry module
(`igp2/opendrive/elements/geometry.py`, not under src/) normalises an angle in
radians into one period around zero; the spec speaks of "the normalized angular
gap". -/
def normalise_angle (theta : ℚ) : ℚ := theta - 2 * PI * ⌊(theta + PI) / (2 * PI)⌋

/-- A shapely geometry abstracted to what the queries observe of it: whether it
is empty, and its distance to a query point. -/
structure Boundary where
  is_empty : Bool
  dist : MapPoint → ℚ

/-- Lane type tags (`igp2/opendrive/elements/road_lanes.py`); the queries only
ever compare against `LaneTypes.DRIVING`. -/
inductive LaneTypes where
  | driving
  | none_lane
  | sidewalk
deriving DecidableEq

/-- A lane of a lane section. `uid` models Python object identity (two lane
objects of the parsed network are the same object iff they have the same
`uid`); `road_id` and `section_idx` record the identity triple (road id,
section index, lane id) that the back references `lane.lane_section.parent_road`
provide in the source. -/
structure Lane where
  uid : ℕ
  road_id : ℤ
  section_idx : ℕ
  id : ℤ
  type : LaneTypes
  boundary : Option Boundary

/-- A lane section, split into left (positive id), center (id 0) and right
(negative id) lanes. Modelled from the spec: the `LaneSection` class lives in
`road_lanes.py`, outside src/; the spec says an "ordered sequence of Lanes,
split into left (positive id) and right (negative id)" with "lane id 0" as
"the non-drivable center reference lane". -/
structure LaneSection where
  left_lanes : List Lane
  center_lanes : List Lane
  right_lanes : List Lane

/-- Modelled from the spec: `LaneSection.all_lanes` iterates every lane of the
section. It must include the center lane, since the in-src queries
`lanes_within_angle` and `best_lane_at` explicitly filter `lane.id != 0` while
iterating `all_lanes`. -/
def LaneSection.all_lanes (s : LaneSection) : List Lane :=
  s.left_lanes ++ s.center_lanes ++ s.right_lanes

/-- A junction group (`igp2/opendrive/elements/junction.py`): an id and a
semantic type tag such as "roundabout". -/
structure JunctionGroup where
  id : ℤ
  type : String
deriving DecidableEq, BEq

/-- A junction with its optional back reference to a junction group. -/
structure Junction where
  id : ℤ
  junction_group : Option JunctionGroup
deriving DecidableEq, BEq

/-- The element of a road link: either another road (referenced by id, since a
cyclic object graph cannot be a Lean inductive value) or a junction. -/
inductive LinkElement where
  | roadElem (road_id : ℤ)
  | junctionElem (junction : Junction)
deriving DecidableEq, BEq

/-- Predecessor/successor links of a road (`road.link.predecessor.element` and
`road.link.successor.element` in the source). -/
structure RoadLinks where
  predecessor : Option LinkElement
  successor : Option LinkElement

/-- A road. `midline` is an opaque handle for the road's reference curve (the
goal contract measures distances to it), and `angle_at` is the composite
`road.plan_view.calc(road.midline.project(point))[1]`, i.e. the tangent heading
of the reference line at the closest point to the query point. -/
structure Road where
  id : ℤ
  boundary : Option Boundary
  lane_sections : List LaneSection
  junction : Option Junction
  link : RoadLinks
  midline : ℕ
  angle_at : MapPoint → ℚ

/-- The road network (`Map` in `igp2/opendrive/map.py`): roads, junctions and
junction groups in description/insertion order. -/
structure Map where
  roads : List Road
  junctions : List Junction
  junction_groups : List JunctionGroup

/-- External goal contract: a center point and a distance operation over
reference curves (`goal.center`, `goal.distance(road.midline)`). -/
structure Goal where
  center : MapPoint
  dist_curve : ℕ → ℚ

/-- Embeds `Map.ROAD_PRECISION_ERROR` (1e-8). -/
def ROAD_PRECISION_ERROR : ℚ := mkRat 1 100000000

/-- Embeds `Map.LANE_PRECISION_ERROR` (1e-8). -/
def LANE_PRECISION_ERROR : ℚ := mkRat 1 100000000

/-- Modelled from the spec: `Road.drivable` (in `elements/road.py`, not under
src/) is "a derived drivability flag (true iff it owns at least one drivable
lane)". -/
def road_drivable (road : Road) : Bool :=
  road.lane_sections.any (fun ls => ls.all_lanes.any (fun l => l.type == LaneTypes.driving))

/-- Embeds `Map.roads_at`: every road whose boundary lies within `max_distance`
(default `ROAD_PRECISION_ERROR`) of the point, skipping non-drivable roads when
`drivable` is set, in road insertion order. -/
def roads_at (net : Map) (point : MapPoint) (drivable : Bool) (max_distance : Option ℚ) :
    List Road :=
  let md := max_distance.getD ROAD_PRECISION_ERROR
  net.roads.filter (fun road =>
    match road.boundary with
    | some b => decide (b.dist point < md) && (!drivable || road_drivable road)
    | none => false)

/-- The per-lane acceptance condition of `Map.lanes_at`: boundary present and
non-empty, within `max_distance` of the point, and drivable when
`drivable_only`. Note there is no `lane.id != 0` filter here in the source. -/
def lane_at_cond (point : MapPoint) (md : ℚ) (drivable_only : Bool) (lane : Lane) : Bool :=
  match lane.boundary with
  | some b =>
      !b.is_empty && decide (b.dist point < md) &&
        (!drivable_only || lane.type == LaneTypes.driving)
  | none => false

/-- One iteration of the candidate loop of `Map.lanes_at`: append the lane
when it passes `lane_at_cond` and no lane with the same object identity
(`lane not in candidates`) has been collected yet. -/
def lanes_at_step (point : MapPoint) (md : ℚ) (drivable_only : Bool)
    (candidates : List Lane) (lane : Lane) : List Lane :=
  if lane_at_cond point md drivable_only lane
      && !(candidates.any (fun c => c.uid == lane.uid))
  then candidates ++ [lane] else candidates

/-- Embeds `Map.lanes_at`: all lanes of the roads found by `roads_at` that satisfy
`lane_at_cond`, deduplicated by object identity (`lane not in candidates`). -/
def lanes_at (net : Map) (point : MapPoint) (drivable_only : Bool) (max_distance : Option ℚ) :
    List Lane :=
  let md := max_distance.getD LANE_PRECISION_ERROR
  let roads := roads_at net point false max_distance
  (roads.flatMap (fun road => road.lane_sections.flatMap LaneSection.all_lanes)).foldl
    (lanes_at_step point md drivable_only) []

/-- The identity triple (road id, section index, lane id) of a lane. -/
def lane_identity (l : Lane) : ℤ × ℕ × ℤ := (l.road_id, l.section_idx, l.id)

/-- All lane objects owned by the network, in iteration order. -/
def all_map_lanes (net : Map) : List Lane :=
  net.roads.flatMap (fun r => r.lane_sections.flatMap LaneSection.all_lanes)

/-- Compares `d < best_diff` where `best_diff` starts out as `np.inf` (`none` stands
for infinity). -/
def lt_inf (d : ℚ) : Option ℚ → Bool
  | none => true
  | some bd => decide (d < bd)

/-- The per-candidate angular difference computed inside the loop of
`Map.best_road_at`: flip the road's tangent by pi for junction roads with no
right lanes, flip the comparison heading by pi for non-junction roads more than
pi/2 off the original heading, then measure
`abs((heading - angle + pi) % (2*pi) - pi)`. -/
def road_angle_diff (point : MapPoint) (original_heading : ℚ) (road : Road) : ℚ :=
  let angle0 := road.angle_at point
  let angle :=
    if road.junction.isSome
        && road.lane_sections.all (fun ls => ls.right_lanes.isEmpty)
    then normalise_angle (angle0 + PI) else angle0
  let heading :=
    if road.junction.isNone && decide (|original_heading - angle0| > PI / 2)
    then normalise_angle (original_heading + PI) else original_heading
  |py_mod (heading - angle + PI) (2 * PI) - PI|

/-- One iteration of the candidate loop of `Map.best_road_at`: skip
non-drivable roads when `drivable`; otherwise either keep the running best iff
the new road's midline is strictly closer to the goal (goal given and a best
already held), or keep the smaller angular difference. -/
def best_road_step (goal : Option Goal) (drivable : Bool) (point : MapPoint)
    (original_heading : ℚ) (st : Option Road × Option ℚ) (road : Road) :
    Option Road × Option ℚ :=
  if drivable && !road_drivable road then st
  else
    let diff := road_angle_diff point original_heading road
    match st.1, goal with
    | some best, some g =>
        if g.dist_curve road.midline < g.dist_curve best.midline
        then (some road, some diff) else st
    | _, _ =>
        if lt_inf diff st.2 then (some road, some diff) else st

/-- Embeds `Map.best_road_at`: `roads_at` (with `drivable=False`) drives the search;
none on a miss, the first road when there is a single candidate or no heading,
otherwise the loop of `best_road_step` over the candidates. -/
def best_road_at (net : Map) (point : MapPoint) (heading : Option ℚ)
    (drivable : Bool) (goal : Option Goal) : Option Road :=
  let roads := roads_at net point false none
  if roads.length = 0 then none
  else if roads.length = 1 ∨ heading.isNone then roads.head?
  else
    (roads.foldl
      (best_road_step goal drivable point (normalise_angle (heading.getD 0)))
      (none, none)).1

/-- The combined heuristic of `Map.best_lane_at` for one lane of the resolved
road: the angular difference (the raw heading against the road tangent, flipped
by pi for left lanes) plus the lane's boundary distance from the point; a plain
sum of radians and map units. -/
def lane_key (road : Road) (point : MapPoint) (heading : Option ℚ) (lane : Lane) : ℚ :=
  let distance := match lane.boundary with | some b => b.dist point | none => 0
  let angle_diff :=
    match heading with
    | none => 0
    | some h =>
        let oa := road.angle_at point
        |h - (if 0 < lane.id then normalise_angle (oa + PI) else oa)|
  angle_diff + distance

/-- One iteration of the lane loop of `Map.best_lane_at`: lanes with a
boundary, non-center id, drivability when requested, and distance below
`max_distance` compete on `lane_key`; the stored best is replaced only when its
key is strictly larger. -/
def best_lane_step (road : Road) (point : MapPoint) (heading : Option ℚ) (md : ℚ)
    (drivable_only : Bool) (best : Option (ℚ × Lane)) (lane : Lane) :
    Option (ℚ × Lane) :=
  match lane.boundary with
  | none => best
  | some b =>
      if lane.id ≠ 0 ∧ (drivable_only = false ∨ lane.type = LaneTypes.driving) then
        let distance := b.dist point
        if distance < md then
          let k := lane_key road point heading lane
          match best with
          | none => some (k, lane)
          | some (bk, bl) => if bk > k then some (k, lane) else some (bk, bl)
        else best
      else best

/-- Embeds `Map.best_lane_at`: resolve the road through `best_road_at` (forwarding the
goal, `drivable` left at its default True), then run `best_lane_step` over all
lanes of that road. -/
def best_lane_at (net : Map) (point : MapPoint) (heading : Option ℚ)
    (drivable_only : Bool) (max_distance : Option ℚ) (goal : Option Goal) :
    Option Lane :=
  let md := max_distance.getD LANE_PRECISION_ERROR
  match best_road_at net point heading true goal with
  | none => none
  | some road =>
      ((road.lane_sections.flatMap LaneSection.all_lanes).foldl
        (best_lane_step road point heading md drivable_only) none).map Prod.snd

/-- Road lookup by id, standing in for the Python object references of the
predecessor/successor link graph. -/
def find_road (net : Map) (rid : ℤ) : Option Road :=
  net.roads.find? (fun r => r.id == rid)

/-- Python's short-circuiting `A and B` lifted to the fuel-indexed results of
`road_in_roundabout`: a first conjunct that never finishes (or is False) stops
the computation before the second is evaluated. -/
def py_and_opt (a : Option Bool) (b : Unit → Option Bool) : Option Bool :=
  match a with
  | none => none
  | some false => some false
  | some true => b ()

/-- Embeds `Map.road_in_roundabout`, indexed by recursion depth. The source recurses
through `road.link.predecessor`/`successor` with no visited set and no depth
bound; `none` means the computation did not complete within `fuel` nested
calls, so a result of `none` for every fuel is non-termination of the source. -/
def road_in_roundabout_fuel (net : Map) : ℕ → Road → Option Bool
  | 0, _ => none
  | fuel + 1, road =>
    match road.link.predecessor, road.link.successor with
    | none, _ => some false
    | some _, none => some false
    | some pred, some succ =>
      match road.junction with
      | some junction =>
        match junction.junction_group with
        | some jg =>
          if jg.type = "roundabout" then
            match pred, succ with
            | .roadElem pid, .roadElem sid =>
                match find_road net pid, find_road net sid with
                | some pr, some sr =>
                    py_and_opt (road_in_roundabout_fuel net fuel pr)
                      (fun _ => road_in_roundabout_fuel net fuel sr)
                | _, _ => none
            | .junctionElem pj, .roadElem sid =>
                if pj.junction_group.isSome && (pj.junction_group == some jg) then
                  match find_road net sid with
                  | some sr => road_in_roundabout_fuel net fuel sr
                  | none => none
                else some false
            | .roadElem pid, .junctionElem sj =>
                if sj.junction_group.isSome && (sj.junction_group == some jg) then
                  match find_road net pid with
                  | some pr => road_in_roundabout_fuel net fuel pr
                  | none => none
                else some false
            | .junctionElem pj, .junctionElem sj =>
                some (pj.junction_group.isSome && (pj.junction_group == some jg)
                  && sj.junction_group.isSome && (sj.junction_group == some jg))
          else some false
        | none => some false
      | none =>
        match pred, succ with
        | .junctionElem pj, .junctionElem sj =>
            match pj.junction_group, sj.junction_group with
            | some pg, some sg => some (pg == sg && pg.type == sg.type && sg.type == "roundabout")
            | _, _ => some false
        | _, _ => some false

/-- The message of the `ValueError` raised by `Map.in_roundabout` on a miss. -/
def no_road_error : String := "ValueError: No road found at point."

/-- Embeds `Map.in_roundabout`: resolve the road with `best_road_at` (goal `None`,
`drivable` at its default True); raise `ValueError` when no road is found,
otherwise defer to `road_in_roundabout` (fuel-indexed here). -/
def in_roundabout (net : Map) (point : MapPoint) (heading : Option ℚ) (fuel : ℕ) :
    Except String (Option Bool) :=
  match best_road_at net point heading true none with
  | none => Except.error no_road_error
  | some road => Except.ok (road_in_roundabout_fuel net fuel road)

/-- A primitive control command `ip.Action(acceleration, steer_angle)`. -/
structure PyAction where
  acceleration : ℚ
  steer_angle : ℚ
deriving DecidableEq

/-- A macro action of a traffic agent's plan, abstracted (per the external
MacroAction contract) to what the agent observes of it at the observation under
consideration: the outcome of `done(observation)` and of
`next_action(observation)`. -/
structure TMacro where
  is_done : Bool
  act : PyAction
deriving DecidableEq

/-- The mutable state of a `TrafficAgent`: the FIFO plan `_macro_actions` and
the executor's `_current_macro`. -/
structure TrafficAgentState where
  macro_actions : List TMacro
  current_ma : Option TMacro
deriving DecidableEq

/-- The `RuntimeError` of `TrafficAgent.set_destination` when A* yields no
macro-action list. -/
def no_path_error : String := "RuntimeError: Could not find path to goal."

/-- The `AssertionError` of `MacroAgent.done` when `_current_macro` is None. -/
def done_assert_error : String := "AssertionError: Macro action of Agent is None!"

/-- Embeds `TrafficAgent.set_destination`, with the external A* search's action lists
passed in (`search` returns `(cost, actions)`): an empty `actions` raises the
path-not-found `RuntimeError` (reaching no assignment, so the caller's state is
unchanged); otherwise `_macro_actions` becomes `actions[0]`. -/
def set_destination (s : TrafficAgentState) (search_actions : List (List TMacro)) :
    Except String TrafficAgentState :=
  match search_actions with
  | [] => Except.error no_path_error
  | plan :: _ => Except.ok { s with macro_actions := plan }

/-- Embeds `TrafficAgent.done`: `len(self._macro_actions) == 0 and super().done(obs)`.
The short-circuit returns False outright for a non-empty plan; with an empty
plan, `MacroAgent.done` asserts `_current_macro is not None` before asking the
current macro. -/
def done_ta (s : TrafficAgentState) : Except String Bool :=
  if s.macro_actions.length = 0 then
    match s.current_ma with
    | none => Except.error done_assert_error
    | some m => Except.ok m.is_done
  else Except.ok false

/-- Embeds `TrafficAgent._advance_macro`: pop the front of the plan into
`_current_macro` (an empty plan would raise `IndexError` in `list.pop(0)`). -/
def advance_ma (s : TrafficAgentState) : Except String TrafficAgentState :=
  match s.macro_actions with
  | [] => Except.error "IndexError: pop from empty list"
  | m :: rest => Except.ok { macro_actions := rest, current_ma := some m }

/-- Embeds `TrafficAgent.next_action`: install a macro first if none is current
(planning a route if the plan is empty); when the current macro is done, either
advance to the next planned macro or, with an empty plan, return the neutral
`ip.Action(0, 0)` without touching the state; otherwise forward the current
macro's action. Returns the produced action together with the agent state after
the call. -/
def next_action_ta (s : TrafficAgentState) (search_actions : List (List TMacro)) :
    Except String (PyAction × TrafficAgentState) :=
  let step1 : Except String TrafficAgentState :=
    match s.current_ma with
    | none =>
        let planned : Except String TrafficAgentState :=
          if s.macro_actions.length = 0 then set_destination s search_actions
          else Except.ok s
        match planned with
        | Except.error e => Except.error e
        | Except.ok s' => advance_ma s'
    | some _ => Except.ok s
  match step1 with
  | Except.error e => Except.error e
  | Except.ok s1 =>
      match s1.current_ma with
      | none => Except.error done_assert_error
      | some m =>
          if m.is_done then
            if s1.macro_actions.length > 0 then
              match advance_ma s1 with
              | Except.error e => Except.error e
              | Except.ok s2 =>
                  match s2.current_ma with
                  | some m2 => Except.ok (m2.act, s2)
                  | none => Except.error done_assert_error
            else Except.ok (PyAction.mk 0 0, s1)
          else Except.ok (m.act, s1)

/-- The igp2 macro-action classes that can be passed (as class objects) to
`MacroAgent.update_macro_action`. -/
inductive MAClass where
  | exit
  | continueLane
  | changeLaneLeft
  | changeLaneRight
  | stopMA
deriving DecidableEq

/-- The metaclass of each macro-action class object: every igp2 macro-action
class is an ordinary Python class, so its metaclass is `type`. -/
def metaclass_of : MAClass → String
  | .exit => "type"
  | .continueLane => "type"
  | .changeLaneLeft => "type"
  | .changeLaneRight => "type"
  | .stopMA => "type"

/-- The source's test `isinstance(new_macro_action, type(ip.Exit))`:
`type(ip.Exit)` is the metaclass of `Exit`, and `isinstance(c, m)` for a class
object `c` asks whether `c` is an instance of `m`, i.e. whether the metaclass
of `c` is `m` (or a subclass); the class hierarchy of `Exit` itself plays no
part in this test. -/
def isinstance_type_exit (c : MAClass) : Bool :=
  metaclass_of c == metaclass_of MAClass.exit

/-- A candidate parameter set from `get_possible_args`: a kwargs dict holding
an optional `"turn_target"` point. -/
structure ArgSet where
  turn_target : Option MapPoint
deriving DecidableEq

/-- An instantiated macro action `new_macro_action(agent_id=..., frame=...,
scenario_map=..., open_loop=False, **kwargs)`, recording the class it was built
from and the kwargs used. -/
structure MacroInst where
  cls : MAClass
  kwargs : ArgSet
deriving DecidableEq

/-- Squared Euclidean distance between two points. `np.argmin` over
`np.linalg.norm(ps - goal, axis=1)` picks the same (first-minimal) element as
the argmin over squared norms, since the square root is monotone. -/
def dist_sq (p q : MapPoint) : ℚ := (p.1 - q.1) ^ 2 + (p.2 - q.2) ^ 2

/-- First-minimal element of a list under a key, as `np.argmin` selects it
(ties go to the earliest index); `none` on the empty list, where `np.argmin`
raises `ValueError`. -/
def argmin_by (key : MapPoint → ℚ) (l : List MapPoint) : Option MapPoint :=
  l.foldl (fun best t =>
    match best with
    | none => some t
    | some b => if key t < key b then some t else some b) none

/-- The candidate-narrowing step of `MacroAgent.update_macro_action`: when more
than one parameter set exists and `isinstance(new_macro_action, type(ip.Exit))`
holds, collect the turn targets and keep only the one closest (Euclidean) to
the goal center; `np.argmin` on an empty collection raises `ValueError`. -/
def narrow_args (c : MAClass) (goal_center : MapPoint) (args : List ArgSet) :
    Except String (List ArgSet) :=
  if args.length > 1 && isinstance_type_exit c then
    let ps := args.filterMap (fun t => t.turn_target)
    match argmin_by (fun t => dist_sq t goal_center) ps with
    | none => Except.error "ValueError: attempt to get argmin of an empty sequence"
    | some t => Except.ok [ArgSet.mk (some t)]
  else Except.ok args

/-- Embeds `MacroAgent.update_macro_action`: narrow the candidate parameter sets, then
iterate over the remaining candidates, re-assigning `_current_macro` to a newly
constructed macro action on every iteration. Returns the final
`_current_macro`. -/
def update_macro_action (c : MAClass) (goal_center : MapPoint) (possible_args : List ArgSet)
    (current : Option MacroInst) : Except String (Option MacroInst) :=
  match narrow_args c goal_center possible_args with
  | Except.error e => Except.error e
  | Except.ok args =>
      Except.ok (args.foldl (fun _cur kwargs => some (MacroInst.mk c kwargs)) current)

/-- A boundary with no extent from the query points used in the concrete
networks below: non-empty, at distance zero from every point. -/
def zero_boundary : Boundary := Boundary.mk false (fun _ => 0)

/-- The roundabout-typed junction group of the cyclic test network. -/
def cyclic_group : JunctionGroup := JunctionGroup.mk 10 "roundabout"

/-- The junction of the cyclic test network, member of the roundabout group. -/
def cyclic_junction : Junction := Junction.mk 20 (some cyclic_group)

/-- Road 1 of the cyclic test network: inside the roundabout junction, with
road 2 as both its predecessor and its successor. -/
def cyclic_road_a : Road :=
  Road.mk 1 none [] (some cyclic_junction)
    (RoadLinks.mk (some (LinkElement.roadElem 2)) (some (LinkElement.roadElem 2))) 0 (fun _ => 0)

/-- Road 2 of the cyclic test network: inside the roundabout junction, with
road 1 as both its predecessor and its successor. -/
def cyclic_road_b : Road :=
  Road.mk 2 none [] (some cyclic_junction)
    (RoadLinks.mk (some (LinkElement.roadElem 1)) (some (LinkElement.roadElem 1))) 0 (fun _ => 0)

/-- A structurally valid network whose predecessor/successor link graph is the
two-cycle between `cyclic_road_a` and `cyclic_road_b`. -/
def cyclic_net : Map := Map.mk [cyclic_road_a, cyclic_road_b] [cyclic_junction] [cyclic_group]

lemma cyclic_roundabout_aux : ∀ n : ℕ,
    road_in_roundabout_fuel cyclic_net n cyclic_road_a = none ∧
    road_in_roundabout_fuel cyclic_net n cyclic_road_b = none := by
  intro n
  induction n with
  | zero => exact ⟨rfl, rfl⟩
  | succ k ih =>
    refine ⟨?_, ?_⟩
    · have h : road_in_roundabout_fuel cyclic_net (k + 1) cyclic_road_a =
          py_and_opt (road_in_roundabout_fuel cyclic_net k cyclic_road_b)
            (fun _ => road_in_roundabout_fuel cyclic_net k cyclic_road_b) := rfl
      rw [h, ih.2]; rfl
    · have h : road_in_roundabout_fuel cyclic_net (k + 1) cyclic_road_b =
          py_and_opt (road_in_roundabout_fuel cyclic_net k cyclic_road_a)
            (fun _ => road_in_roundabout_fuel cyclic_net k cyclic_road_a) := rfl
      rw [h, ih.1]; rfl

/-- Claim C1: `road_in_roundabout` terminates on every road network, including
cyclic predecessor/successor link graphs. REFUTED as stated on the code: the
source recursion has no depth bound and no visited set, and on the network
`cyclic_net` — two roads of a roundabout-typed junction that are each other's
predecessor and successor — the recursive inspection never finishes: the
fuel-indexed embedding yields no result at every recursion depth. -/
theorem road_in_roundabout_cyclic_diverges :
    ∀ n : ℕ, road_in_roundabout_fuel cyclic_net n cyclic_road_a = none :=
  fun n => (cyclic_roundabout_aux n).1

/-- Claim C10: `in_roundabout` raises a `ValueError` when `best_road_at` finds
no road at the given point, rather than returning an explicit none/false. -/
theorem in_roundabout_raises_on_miss (net : Map) (point : MapPoint)
    (heading : Option ℚ) (fuel : ℕ)
    (h : best_road_at net point heading true none = none) :
    in_roundabout net point heading fuel = Except.error no_road_error := by
  unfold in_roundabout
  rw [h]

/-- An empty road network. -/
def empty_net : Map := Map.mk [] [] []

/-- Witness for `in_roundabout_raises_on_miss`: on the empty network no road is
found at the origin, and `in_roundabout` raises the `ValueError`. -/
theorem in_roundabout_raises_on_miss_witness :
    in_roundabout empty_net (0, 0) none 3 = Except.error no_road_error :=
  in_roundabout_raises_on_miss empty_net (0, 0) none 3 rfl

/-- Claim C9: when `roads_at` finds exactly one road at the point, or when no
heading is given, `best_road_at` returns that first road unconditionally — the
candidate search runs with `drivable=False` and the early-return branches
apply no drivability filter, so this holds even with `drivable=True` for a
road with no drivable lanes. -/
theorem best_road_at_single_candidate (net : Map) (point : MapPoint)
    (heading : Option ℚ) (goal : Option Goal)
    (hne : 0 < (roads_at net point false none).length)
    (hone : (roads_at net point false none).length = 1 ∨ heading = none) :
    best_road_at net point heading true goal = (roads_at net point false none).head? := by
  unfold best_road_at
  have h0 : ¬ (roads_at net point false none).length = 0 := by omega
  rw [if_neg h0, if_pos]
  rcases hone with h1 | h1
  · exact Or.inl h1
  · exact Or.inr (by rw [h1]; rfl)

/-- A road with a single non-drivable (sidewalk) right lane, passing through
every query point. -/
def lone_sidewalk_road : Road :=
  Road.mk 7 (some zero_boundary)
    [LaneSection.mk [] [Lane.mk 0 7 0 0 LaneTypes.none_lane (some zero_boundary)]
      [Lane.mk 1 7 0 (-1) LaneTypes.sidewalk (some zero_boundary)]]
    none (RoadLinks.mk none none) 0 (fun _ => 0)

/-- A network holding only `lone_sidewalk_road`. -/
def lone_sidewalk_net : Map := Map.mk [lone_sidewalk_road] [] []

/-- Witness for `best_road_at_single_candidate`: a single candidate road with
no drivable lane is still returned by `best_road_at` with `drivable=True`. -/
theorem best_road_at_single_candidate_witness :
    road_drivable lone_sidewalk_road = false ∧
    best_road_at lone_sidewalk_net (0, 0) (some 1) true none =
      (roads_at lone_sidewalk_net (0, 0) false none).head? :=
  ⟨by decide,
   best_road_at_single_candidate lone_sidewalk_net (0, 0) (some 1) none
     (by decide) (Or.inl (by decide))⟩

/-- A `TrafficAgent` right after construction: empty plan, no current macro. -/
def fresh_agent : TrafficAgentState := TrafficAgentState.mk [] none

/-- Counterexample to claim C3: on a fresh agent the failed `set_destination`
does raise the path-not-found error and leaves the plan unchanged, but `done`
does not then "stay false": with the plan empty, the short-circuit reaches
`MacroAgent.done`, whose `assert self._current_macro is not None` raises. -/
theorem set_destination_then_done_raises :
    set_destination fresh_agent [] = Except.error no_path_error ∧
    done_ta fresh_agent = Except.error done_assert_error :=
  ⟨rfl, rfl⟩

/-- Claim C3 (amended): when the route planner returns an empty action list,
`set_destination` raises the path-not-found failure and performs no state
change; but afterwards `done` does not in general stay false without raising.
Exactly one of three behaviours occurs: with a non-empty remaining plan `done`
returns false without raising; with an empty plan and no current macro (e.g. a
fresh agent) `done` itself raises an assertion error; and with an empty plan
and a current macro set (e.g. an exhausted agent retrying a new goal) `done`
returns the current macro's completion status — true for a finished macro. -/
theorem set_destination_empty_result_behaviour (s : TrafficAgentState) :
    set_destination s [] = Except.error no_path_error ∧
    (s.macro_actions ≠ [] → done_ta s = Except.ok false) ∧
    (s.macro_actions = [] → s.current_ma = none →
      done_ta s = Except.error done_assert_error) ∧
    (∀ m, s.macro_actions = [] → s.current_ma = some m →
      done_ta s = Except.ok m.is_done) := by
  refine ⟨rfl, ?_, ?_, ?_⟩
  · intro h
    unfold done_ta
    rw [if_neg (by simpa using h)]
  · intro h1 h2
    unfold done_ta
    rw [if_pos (by simp [h1]), h2]
  · intro m h1 h2
    unfold done_ta
    rw [if_pos (by simp [h1]), h2]

/-- Witness for `set_destination_empty_result_behaviour`, at an agent with one
pending macro, at the fresh agent, and at an agent with an empty plan whose
current macro reports done (there `done` returns true). -/
theorem set_destination_empty_result_behaviour_witness :
    set_destination (TrafficAgentState.mk [TMacro.mk false (PyAction.mk 0 0)] none) []
        = Except.error no_path_error ∧
    done_ta (TrafficAgentState.mk [TMacro.mk false (PyAction.mk 0 0)] none) = Except.ok false ∧
    done_ta fresh_agent = Except.error done_assert_error ∧
    done_ta (TrafficAgentState.mk [] (some (TMacro.mk true (PyAction.mk 0 0))))
        = Except.ok true :=
  ⟨(set_destination_empty_result_behaviour
      (TrafficAgentState.mk [TMacro.mk false (PyAction.mk 0 0)] none)).1,
   (set_destination_empty_result_behaviour
      (TrafficAgentState.mk [TMacro.mk false (PyAction.mk 0 0)] none)).2.1 (by simp),
   (set_destination_empty_result_behaviour fresh_agent).2.2.1 rfl rfl,
   (set_destination_empty_result_behaviour
      (TrafficAgentState.mk [] (some (TMacro.mk true (PyAction.mk 0 0))))).2.2.2
     (TMacro.mk true (PyAction.mk 0 0)) rfl rfl⟩

/-- Claim C8: a route-following agent whose current macro action reports done
and whose plan queue is empty returns the neutral stop command
`ip.Action(0, 0)` from `next_action` and leaves its state untouched — so every
subsequent call does the same rather than raising. -/
theorem next_action_exhausted_stop (s : TrafficAgentState)
    (search_actions : List (List TMacro)) (m : TMacro)
    (hc : s.current_ma = some m) (hd : m.is_done = true) (hq : s.macro_actions = []) :
    next_action_ta s search_actions = Except.ok (PyAction.mk 0 0, s) := by
  simp [next_action_ta, hc, hd, hq]

/-- An agent in the exhausted state: empty plan, current macro done. -/
def exhausted_agent : TrafficAgentState :=
  TrafficAgentState.mk [] (some (TMacro.mk true (PyAction.mk 5 3)))

/-- Witness for `next_action_exhausted_stop` at a concrete exhausted agent. -/
theorem next_action_exhausted_stop_witness :
    next_action_ta exhausted_agent [] = Except.ok (PyAction.mk 0 0, exhausted_agent) :=
  next_action_exhausted_stop exhausted_agent [] (TMacro.mk true (PyAction.mk 5 3)) rfl rfl rfl

/-- Claim C4: the goal-based narrowing was meant to apply iff the requested
macro-action type is an exit maneuver, but the source's
`isinstance(new_macro_action, type(ip.Exit))` is a metaclass test that every
macro-action class passes, so the narrowing also fires for a non-exit type:
here `Continue` with two turn-target candidates is narrowed to the goal-closest
candidate `(0, 0)` instead of leaving both candidates (whose loop would install
the last, `(10, 10)`). -/
theorem update_macro_action_narrows_nonexit :
    update_macro_action MAClass.continueLane (1, 1)
      [ArgSet.mk (some (0, 0)), ArgSet.mk (some (10, 10))] none
    = Except.ok (some (MacroInst.mk MAClass.continueLane (ArgSet.mk (some (0, 0))))) := by
  simp only [update_macro_action, narrow_args, isinstance_type_exit, metaclass_of,
    argmin_by, dist_sq, List.length_cons, List.length_nil, List.filterMap_cons,
    List.filterMap_nil, List.foldl_cons, List.foldl_nil]
  norm_num

/-- Counterexample to claim C5 (reading "no goal-based narrowing occurs" as the
spec intends it, i.e. the requested type is not an exit maneuver): for the
non-exit type `ChangeLaneLeft` with two candidates, the installed macro action
is NOT the one built from the last candidate in list order — the metaclass
test makes the narrowing fire and install the goal-closest first candidate. -/
theorem update_macro_action_not_last_candidate :
    update_macro_action MAClass.changeLaneLeft (0, 0)
      [ArgSet.mk (some (1, 1)), ArgSet.mk (some (5, 5))] none
    ≠ Except.ok (some (MacroInst.mk MAClass.changeLaneLeft (ArgSet.mk (some (5, 5))))) := by
  simp only [update_macro_action, narrow_args, isinstance_type_exit, metaclass_of,
    argmin_by, dist_sq, List.length_cons, List.length_nil, List.filterMap_cons,
    List.filterMap_nil, List.foldl_cons, List.foldl_nil]
  norm_num
  decide

lemma foldl_overwrite {α β : Type} (f : α → β) :
    ∀ (l : List α) (init : Option β) (last : α), l.getLast? = some last →
      l.foldl (fun _ x => some (f x)) init = some (f last)
  | [], _, _ => by intro h; simp at h
  | x :: xs, init, last => by
    intro h
    cases xs with
    | nil => simp at h; subst h; rfl
    | cons y ys =>
      rw [List.foldl_cons]
      exact foldl_overwrite f (y :: ys) (some (f x)) last
        (by rwa [List.getLast?_cons_cons] at h)

/-- Claim C5 (amended): `update_macro_action` re-assigns `_current_macro` on
every iteration over the candidate list that remains after the narrowing step,
so the installed macro action is the one constructed from the last remaining
candidate. Because the exit test is true for every macro-action class, more
than one candidate never survives narrowing: the multi-candidate case of the
original claim is narrowed to the single goal-closest candidate first. -/
theorem update_macro_action_installs_last_narrowed (c : MAClass) (g : MapPoint)
    (args narrowed : List ArgSet) (current : Option MacroInst) (last : ArgSet)
    (hn : narrow_args c g args = Except.ok narrowed)
    (hl : narrowed.getLast? = some last) :
    update_macro_action c g args current = Except.ok (some (MacroInst.mk c last)) := by
  unfold update_macro_action
  rw [hn]
  show Except.ok (narrowed.foldl (fun _cur kwargs => some (MacroInst.mk c kwargs)) current)
      = Except.ok (some (MacroInst.mk c last))
  rw [foldl_overwrite (fun kw => MacroInst.mk c kw) narrowed current last hl]

/-- Witness for `update_macro_action_installs_last_narrowed`: a singleton
candidate list survives narrowing untouched and its only element is installed. -/
theorem update_macro_action_installs_last_narrowed_witness :
    update_macro_action MAClass.changeLaneRight (0, 0) [ArgSet.mk none] none
      = Except.ok (some (MacroInst.mk MAClass.changeLaneRight (ArgSet.mk none))) :=
  update_macro_action_installs_last_narrowed MAClass.changeLaneRight (0, 0)
    [ArgSet.mk none] [ArgSet.mk none] none (ArgSet.mk none) rfl rfl

/-- A road consisting only of a center lane (id 0) with a non-empty boundary
passing through the query points. -/
def center_lane_ex : Lane := Lane.mk 0 3 0 0 LaneTypes.none_lane (some zero_boundary)

/-- The road owning `center_lane_ex`. -/
def center_lane_road : Road :=
  Road.mk 3 (some zero_boundary) [LaneSection.mk [] [center_lane_ex] []]
    none (RoadLinks.mk none none) 0 (fun _ => 0)

/-- A network holding only `center_lane_road`. -/
def center_lane_net : Map := Map.mk [center_lane_road] [] []

/-- Counterexample to claim C2: `lanes_at` applies no `lane.id != 0` filter
(unlike `lanes_within_angle` and `best_lane_at`), so a center reference lane
whose non-empty boundary lies within `max_distance` of the point is returned
when `drivable_only` is False. -/
theorem lanes_at_returns_center_lane :
    (lanes_at center_lane_net (0, 0) false none).map Lane.id = [0] := by decide

lemma lanes_at_step_inv (point : MapPoint) (md : ℚ) (drv : Bool) (S : List Lane) :
    ∀ (L : List Lane) (acc : List Lane),
      (∀ x ∈ L, x ∈ S) → (∀ x ∈ acc, x ∈ S) →
      acc.Pairwise (fun a b => a.uid ≠ b.uid) →
      (∀ x ∈ L.foldl (lanes_at_step point md drv) acc, x ∈ S) ∧
      (L.foldl (lanes_at_step point md drv) acc).Pairwise (fun a b => a.uid ≠ b.uid) := by
  intro L
  induction L with
  | nil => intro acc _ hacc hpw; exact ⟨hacc, hpw⟩
  | cons x xs ih =>
    intro acc hL hacc hpw
    rw [List.foldl_cons]
    have hx : x ∈ S := hL x (List.mem_cons_self x xs)
    have hL' : ∀ y ∈ xs, y ∈ S := fun y hy => hL y (List.mem_cons_of_mem x hy)
    by_cases hc : (lane_at_cond point md drv x
        && !(acc.any (fun c => c.uid == x.uid))) = true
    · have hstep : lanes_at_step point md drv acc x = acc ++ [x] := by
        unfold lanes_at_step; rw [if_pos hc]
      rw [hstep]
      apply ih (acc ++ [x]) hL'
      · intro y hy
        rcases List.mem_append.1 hy with h | h
        · exact hacc y h
        · rw [List.mem_singleton.1 h]; exact hx
      · rw [List.pairwise_append]
        refine ⟨hpw, List.pairwise_singleton _ _, ?_⟩
        intro a ha b hb
        rw [List.mem_singleton.1 hb]
        have hc' : lane_at_cond point md drv x = true ∧
            (acc.any (fun c => c.uid == x.uid)) = false := by
          simpa [Bool.and_eq_true] using hc
        have hnone : ∀ c ∈ acc, c.uid ≠ x.uid := by simpa using hc'.2
        exact hnone a ha
    · have hstep : lanes_at_step point md drv acc x = acc := by
        unfold lanes_at_step; rw [if_neg hc]
      rw [hstep]
      exact ih acc hL' hacc hpw

lemma lanes_at_lanes_sub (net : Map) (point : MapPoint) (max_distance : Option ℚ) :
    ∀ x ∈ (roads_at net point false max_distance).flatMap
        (fun road => road.lane_sections.flatMap LaneSection.all_lanes),
      x ∈ all_map_lanes net := by
  intro x hx
  obtain ⟨r, hr, hx⟩ := List.mem_flatMap.1 hx
  exact List.mem_flatMap.2 ⟨r, List.mem_of_mem_filter hr, hx⟩

/-- Claim C2 (amended): `lanes_at` never returns two entries with the same
lane identity (road id, section index, lane id), for networks whose lane
identities determine object identity; but it applies no `lane.id != 0` filter,
so the center reference lane can be returned (see
`lanes_at_returns_center_lane`). -/
theorem lanes_at_no_duplicate_identities (net : Map) (point : MapPoint)
    (drivable_only : Bool) (max_distance : Option ℚ)
    (hcoh : ∀ a ∈ all_map_lanes net, ∀ b ∈ all_map_lanes net,
      lane_identity a = lane_identity b → a.uid = b.uid) :
    (lanes_at net point drivable_only max_distance).Pairwise
      (fun a b => lane_identity a ≠ lane_identity b) := by
  have key := lanes_at_step_inv point (max_distance.getD LANE_PRECISION_ERROR)
    drivable_only (all_map_lanes net)
    ((roads_at net point false max_distance).flatMap
      (fun road => road.lane_sections.flatMap LaneSection.all_lanes)) []
    (lanes_at_lanes_sub net point max_distance) (by simp) (by simp)
  have hdef : lanes_at net point drivable_only max_distance
      = ((roads_at net point false max_distance).flatMap
          (fun road => road.lane_sections.flatMap LaneSection.all_lanes)).foldl
            (lanes_at_step point (max_distance.getD LANE_PRECISION_ERROR) drivable_only) [] := rfl
  rw [hdef]
  refine key.2.imp_of_mem ?_
  intro a b ha hb huid hid
  exact huid (hcoh a (key.1 a ha) b (key.1 b hb) hid)

/-- Witness for `lanes_at_no_duplicate_identities` on the concrete network
`center_lane_net`, whose lane identities are coherent. -/
theorem lanes_at_no_duplicate_identities_witness :
    (lanes_at center_lane_net (0, 0) false none).Pairwise
      (fun a b => lane_identity a ≠ lane_identity b) :=
  lanes_at_no_duplicate_identities center_lane_net (0, 0) false none (by decide)

/-- The goal-based selection procedure as the specification words it: a left
fold over the candidates where the first candidate becomes the running best and
each later candidate replaces it iff its midline is strictly closer to the goal
than the current best's (a pairwise comparison against the held best only). -/
def goal_step (g : Goal) (best : Option Road) (road : Road) : Option Road :=
  match best with
  | none => some road
  | some b =>
      if g.dist_curve road.midline < g.dist_curve b.midline then some road else some b

/-- The full specification-side fold for goal-based road selection. -/
def best_road_goal_fold (g : Goal) (candidates : List Road) : Option Road :=
  candidates.foldl (goal_step g) none

/-- The drivable candidates considered by the scoring loop of `best_road_at`:
the roads at the point (found without a drivability filter) that are
drivable, in insertion order. -/
def drivable_candidates (net : Map) (point : MapPoint) : List Road :=
  (roads_at net point false none).filter road_drivable

lemma best_road_foldl_filter (goal : Option Goal) (point : MapPoint) (oh : ℚ) :
    ∀ (l : List Road) (st : Option Road × Option ℚ),
      l.foldl (best_road_step goal true point oh) st
        = (l.filter road_drivable).foldl (best_road_step goal true point oh) st := by
  intro l
  induction l with
  | nil => intro st; rfl
  | cons r rs ih =>
    intro st
    by_cases hd : road_drivable r = true
    · rw [List.foldl_cons, List.filter_cons_of_pos hd, List.foldl_cons, ih]
    · rw [List.foldl_cons, List.filter_cons_of_neg hd, ih]
      congr 1
      unfold best_road_step
      rw [if_pos]
      simp [hd]

lemma best_road_goal_loop (g : Goal) (point : MapPoint) (oh : ℚ) :
    ∀ (l : List Road), (∀ r ∈ l, road_drivable r = true) →
      ∀ (b : Road) (d : Option ℚ),
        (l.foldl (best_road_step (some g) true point oh) (some b, d)).1
          = l.foldl (goal_step g) (some b) := by
  intro l
  induction l with
  | nil => intro _ b d; rfl
  | cons r rs ih =>
    intro hl b d
    rw [List.foldl_cons, List.foldl_cons]
    have hd := hl r (List.mem_cons_self r rs)
    have hrest : ∀ x ∈ rs, road_drivable x = true :=
      fun x hx => hl x (List.mem_cons_of_mem r hx)
    have hstep : best_road_step (some g) true point oh (some b, d) r
        = if g.dist_curve r.midline < g.dist_curve b.midline
          then (some r, some (road_angle_diff point oh r)) else (some b, d) := by
      unfold best_road_step
      rw [if_neg (by simp [hd])]
    by_cases hlt : g.dist_curve r.midline < g.dist_curve b.midline
    · rw [hstep, if_pos hlt]
      rw [show goal_step g (some b) r = some r from by simp [goal_step, hlt]]
      exact ih hrest r (some (road_angle_diff point oh r))
    · rw [hstep, if_neg hlt]
      rw [show goal_step g (some b) r = some b from by simp [goal_step, hlt]]
      exact ih hrest b d

/-- Claim C6: with a goal and a heading supplied and at least two drivable
candidate roads at the point, `best_road_at` computes exactly the
specification's left fold: the first drivable candidate becomes the running
best and each later drivable candidate replaces it iff its midline is strictly
closer to the goal than the current best's — a pairwise comparison against the
currently-held best only, in road insertion order. -/
theorem best_road_at_goal_fold (net : Map) (point : MapPoint) (h : ℚ) (g : Goal)
    (hc : 2 ≤ (drivable_candidates net point).length) :
    best_road_at net point (some h) true (some g)
      = best_road_goal_fold g (drivable_candidates net point) := by
  have hsub : 2 ≤ (roads_at net point false none).length :=
    le_trans hc (List.length_filter_le _ _)
  unfold best_road_at
  rw [if_neg (by omega), if_neg (by
    intro hor
    rcases hor with h1 | h1
    · omega
    · simp at h1)]
  rw [best_road_foldl_filter (some g) point (normalise_angle ((some h).getD 0))]
  have hdc : (roads_at net point false none).filter road_drivable
      = drivable_candidates net point := rfl
  rw [hdc]
  rcases hcons : drivable_candidates net point with _ | ⟨c, rest⟩
  · rw [hcons] at hc; simp at hc
  · have hcd : road_drivable c = true := by
      have : c ∈ drivable_candidates net point := by rw [hcons]; exact List.mem_cons_self c rest
      exact List.of_mem_filter this
    have hrest : ∀ x ∈ rest, road_drivable x = true := by
      intro x hx
      have : x ∈ drivable_candidates net point := by
        rw [hcons]; exact List.mem_cons_of_mem c hx
      exact List.of_mem_filter this
    rw [List.foldl_cons]
    have hfirst : best_road_step (some g) true point (normalise_angle ((some h).getD 0))
        (none, none) c
        = (some c, some (road_angle_diff point (normalise_angle ((some h).getD 0)) c)) := by
      unfold best_road_step
      rw [if_neg (by simp [hcd])]
      exact rfl
    rw [hfirst]
    rw [best_road_goal_loop g point (normalise_angle ((some h).getD 0)) rest hrest c _]
    rfl

/-- A drivable right lane for the concrete goal-fold network. -/
def c6_lane (u : ℕ) (rid : ℤ) : Lane :=
  Lane.mk u rid 0 (-1) LaneTypes.driving (some zero_boundary)

/-- First road of the goal-fold network: midline handle 5. -/
def c6_road_1 : Road :=
  Road.mk 1 (some zero_boundary) [LaneSection.mk [] [] [c6_lane 10 1]]
    none (RoadLinks.mk none none) 5 (fun _ => 0)

/-- Second road of the goal-fold network: midline handle 3 (closer to the
goal under `c6_goal`). -/
def c6_road_2 : Road :=
  Road.mk 2 (some zero_boundary) [LaneSection.mk [] [] [c6_lane 11 2]]
    none (RoadLinks.mk none none) 3 (fun _ => 0)

/-- A network with two overlapping drivable roads. -/
def c6_net : Map := Map.mk [c6_road_1, c6_road_2] [] []

/-- A goal whose distance to a midline handle is the handle's value. -/
def c6_goal : Goal := Goal.mk (0, 0) (fun m => mkRat m 1)

/-- Witness for `best_road_at_goal_fold` on a concrete two-candidate network. -/
theorem best_road_at_goal_fold_witness :
    2 ≤ (drivable_candidates c6_net (0, 0)).length ∧
    best_road_at c6_net (0, 0) (some 0) true (some c6_goal)
      = best_road_goal_fold c6_goal (drivable_candidates c6_net (0, 0)) :=
  ⟨by decide, best_road_at_goal_fold c6_net (0, 0) 0 c6_goal (by decide)⟩

/-- The acceptance condition of the lane loop of `Map.best_lane_at`: the lane
has a boundary, a non-center id, is drivable when requested, and its boundary
distance from the point is below `max_distance`. -/
def lane_filter_pred (point : MapPoint) (md : ℚ) (drivable_only : Bool) (lane : Lane) : Bool :=
  match lane.boundary with
  | none => false
  | some b =>
      decide ((lane.id ≠ 0 ∧ (drivable_only = false ∨ lane.type = LaneTypes.driving))
        ∧ b.dist point < md)

/-- The lanes of a road competing in `best_lane_at`, in iteration order. -/
def candidate_lanes (road : Road) (point : MapPoint) (md : ℚ) (drivable_only : Bool) :
    List Lane :=
  (road.lane_sections.flatMap LaneSection.all_lanes).filter
    (lane_filter_pred point md drivable_only)

/-- The pure running-minimum step on `lane_key` values: replace the stored best
only when its key is strictly larger (first minimum wins ties). -/
def min_step (key : Lane → ℚ) (best : Option (ℚ × Lane)) (x : Lane) : Option (ℚ × Lane) :=
  match best with
  | none => some (key x, x)
  | some (k, b) => if k > key x then some (key x, x) else some (k, b)

/-- The running-minimum fold over a lane list. -/
def min_fold (key : Lane → ℚ) (l : List Lane) : Option (ℚ × Lane) :=
  l.foldl (min_step key) none

lemma best_lane_step_eq (road : Road) (point : MapPoint) (heading : Option ℚ) (md : ℚ)
    (drv : Bool) (st : Option (ℚ × Lane)) (l : Lane) :
    best_lane_step road point heading md drv st l
      = if lane_filter_pred point md drv l
        then min_step (lane_key road point heading) st l else st := by
  cases hb : l.boundary with
  | none => simp [best_lane_step, lane_filter_pred, hb]
  | some b =>
    simp only [best_lane_step, lane_filter_pred, hb]
    by_cases hA : l.id ≠ 0 ∧ (drv = false ∨ l.type = LaneTypes.driving)
    · by_cases hB : b.dist point < md
      · rw [if_pos hA, if_pos hB, if_pos (by simp [hA, hB])]
        rfl
      · rw [if_pos hA, if_neg hB, if_neg (by simp [hB])]
    · rw [if_neg hA, if_neg (by simp [hA])]

lemma foldl_cond_filter {α β : Type} (p : α → Bool) (f : β → α → β) (g : β → α → β)
    (hfg : ∀ st a, f st a = if p a then g st a else st) :
    ∀ (l : List α) (st : β), l.foldl f st = (l.filter p).foldl g st := by
  intro l
  induction l with
  | nil => intro st; rfl
  | cons a as ih =>
    intro st
    rw [List.foldl_cons, hfg]
    by_cases hp : p a = true
    · rw [if_pos hp, List.filter_cons_of_pos hp, List.foldl_cons, ih]
    · rw [if_neg hp, List.filter_cons_of_neg hp, ih]

lemma min_fold_go (key : Lane → ℚ) :
    ∀ (l : List Lane) (k : ℚ) (a : Lane),
      ∃ k2 b, l.foldl (min_step key) (some (k, a)) = some (k2, b) ∧
        ((k2 = k ∧ b = a) ∨ (b ∈ l ∧ k2 = key b)) ∧ k2 ≤ k ∧ ∀ c ∈ l, k2 ≤ key c := by
  intro l
  induction l with
  | nil =>
    intro k a
    exact ⟨k, a, rfl, Or.inl ⟨rfl, rfl⟩, le_refl k, by simp⟩
  | cons x xs ih =>
    intro k a
    rw [List.foldl_cons]
    by_cases hlt : k > key x
    · have hstep : min_step key (some (k, a)) x = some (key x, x) := by
        simp [min_step, hlt]
      rw [hstep]
      obtain ⟨k2, b, heq, horigin, hle, hall⟩ := ih (key x) x
      refine ⟨k2, b, heq, ?_, le_trans hle (le_of_lt hlt), ?_⟩
      · rcases horigin with ⟨hk, hbe⟩ | ⟨hmem, hk⟩
        · exact Or.inr ⟨by rw [hbe]; exact List.mem_cons_self x xs, by rw [hk, hbe]⟩
        · exact Or.inr ⟨List.mem_cons_of_mem x hmem, hk⟩
      · intro c hc
        rcases List.mem_cons.1 hc with rfl | hc
        · exact hle
        · exact hall c hc
    · have hstep : min_step key (some (k, a)) x = some (k, a) := by
        simp [min_step, hlt]
      rw [hstep]
      obtain ⟨k2, b, heq, horigin, hle, hall⟩ := ih k a
      refine ⟨k2, b, heq, ?_, hle, ?_⟩
      · rcases horigin with h | ⟨hmem, hk⟩
        · exact Or.inl h
        · exact Or.inr ⟨List.mem_cons_of_mem x hmem, hk⟩
      intro c hc
      rcases List.mem_cons.1 hc with rfl | hc
      · exact le_trans hle (not_lt.1 hlt)
      · exact hall c hc

lemma min_fold_spec (key : Lane → ℚ) (l : List Lane) :
    (min_fold key l = none ↔ l = []) ∧
    (∀ k b, min_fold key l = some (k, b) →
      b ∈ l ∧ k = key b ∧ ∀ c ∈ l, k ≤ key c) := by
  cases l with
  | nil => exact ⟨by simp [min_fold], by simp [min_fold]⟩
  | cons x xs =>
    have hstep : min_step key none x = some (key x, x) := rfl
    obtain ⟨k2, b2, heq, horigin, hle, hall⟩ := min_fold_go key xs (key x) x
    have hfold : min_fold key (x :: xs) = some (k2, b2) := by
      rw [min_fold, List.foldl_cons, hstep, heq]
    constructor
    · constructor
      · intro h
        rw [hfold] at h
        exact absurd h (by simp)
      · intro h
        exact absurd h (by simp)
    · intro k b h
      rw [hfold] at h
      have hk : k2 = k := by injection h with h1; injection h1 with h2 h3
      have hb : b2 = b := by injection h with h1; injection h1 with h2 h3
      subst hk
      subst hb
      constructor
      · rcases horigin with ⟨_, hbe⟩ | ⟨hmem, _⟩
        · rw [hbe]; exact List.mem_cons_self x xs
        · exact List.mem_cons_of_mem x hmem
      constructor
      · rcases horigin with ⟨hkx, hbe⟩ | ⟨_, hk⟩
        · rw [hkx, hbe]
        · exact hk
      · intro c hc
        rcases List.mem_cons.1 hc with rfl | hc
        · exact hle
        · exact hall c hc

/-- Claim C7: `best_lane_at` resolves the road through `best_road_at`
(forwarding the goal) and then, among that road's drivable, non-center lanes
whose boundary distance from the point is below `max_distance`, returns a lane
minimizing the plain sum `angle_diff + distance` (`lane_key`), and returns none
exactly when no such lane exists. -/
theorem best_lane_at_minimizes (net : Map) (point : MapPoint) (heading : Option ℚ)
    (max_distance : Option ℚ) (goal : Option Goal) (road : Road)
    (hroad : best_road_at net point heading true goal = some road) :
    (best_lane_at net point heading true max_distance goal = none ↔
      candidate_lanes road point (max_distance.getD LANE_PRECISION_ERROR) true = []) ∧
    (∀ l, best_lane_at net point heading true max_distance goal = some l →
      l ∈ candidate_lanes road point (max_distance.getD LANE_PRECISION_ERROR) true ∧
      ∀ l2 ∈ candidate_lanes road point (max_distance.getD LANE_PRECISION_ERROR) true,
        lane_key road point heading l ≤ lane_key road point heading l2) := by
  have hexp : best_lane_at net point heading true max_distance goal
      = (min_fold (lane_key road point heading)
          (candidate_lanes road point (max_distance.getD LANE_PRECISION_ERROR) true)).map
            Prod.snd := by
    unfold best_lane_at
    rw [hroad]
    show ((road.lane_sections.flatMap LaneSection.all_lanes).foldl
        (best_lane_step road point heading (max_distance.getD LANE_PRECISION_ERROR) true)
        none).map Prod.snd = _
    rw [foldl_cond_filter
      (lane_filter_pred point (max_distance.getD LANE_PRECISION_ERROR) true)
      (best_lane_step road point heading (max_distance.getD LANE_PRECISION_ERROR) true)
      (min_step (lane_key road point heading))
      (fun st a => best_lane_step_eq road point heading
        (max_distance.getD LANE_PRECISION_ERROR) true st a)
      (road.lane_sections.flatMap LaneSection.all_lanes) none]
    rfl
  obtain ⟨hnone, hsome⟩ := min_fold_spec (lane_key road point heading)
    (candidate_lanes road point (max_distance.getD LANE_PRECISION_ERROR) true)
  constructor
  · rw [hexp]
    constructor
    · intro h
      rcases hopt : min_fold (lane_key road point heading)
          (candidate_lanes road point (max_distance.getD LANE_PRECISION_ERROR) true)
        with _ | ⟨k, b⟩
      · exact hnone.1 hopt
      · rw [hopt] at h; simp at h
    · intro h
      rw [hnone.2 h]
      rfl
  · intro l hl
    rw [hexp] at hl
    rcases hopt : min_fold (lane_key road point heading)
        (candidate_lanes road point (max_distance.getD LANE_PRECISION_ERROR) true)
      with _ | ⟨k, b⟩
    · rw [hopt] at hl; simp at hl
    · rw [hopt] at hl
      obtain ⟨hmem, hkey, hall⟩ := hsome k b hopt
      have hbl : b = l := by simpa using hl
      subst hbl
      exact ⟨hmem, fun l2 h2 => hkey ▸ hall l2 h2⟩

/-- A drivable right lane for the concrete `best_lane_at` network. -/
def c7_lane : Lane := Lane.mk 20 8 0 (-1) LaneTypes.driving (some zero_boundary)

/-- A road holding only `c7_lane`. -/
def c7_road : Road :=
  Road.mk 8 (some zero_boundary) [LaneSection.mk [] [] [c7_lane]]
    none (RoadLinks.mk none none) 0 (fun _ => 0)

/-- A network holding only `c7_road`. -/
def c7_net : Map := Map.mk [c7_road] [] []

/-- Witness for `best_lane_at_minimizes` on a concrete single-road network
(the road hypothesis is discharged by evaluation). -/
theorem best_lane_at_minimizes_witness :
    best_lane_at c7_net (0, 0) none true none none = none ↔
      candidate_lanes c7_road (0, 0) ((none : Option ℚ).getD LANE_PRECISION_ERROR) true = [] :=
  (best_lane_at_minimizes c7_net (0, 0) none none none c7_road rfl).1
